import Mathlib

/-!
# go-optional: the `Optional[T]` container

A shallow embedding of `optional.go` (package `go_optional`) together with the
properties of its two constructors and four accessor methods.

Modelling conventions.

* A Go type parameter `T any` is a Lean `Type`.  Every Go type has a zero value
  (the value of `var ret T`); the class `ZeroValue` carries it.
* The Go interface type `error` is `Option GoError`: `none` is `nil`, and
  `some e` is a non-nil error.
* The methods are pure functions of the receiver and the argument.  For the
  frame property, the bodies are also given statement by statement and run by
  an interpreter over the call frame (`exec`, `call`).
-/

namespace GoOptional

/-- The zero value of a Go type: what `var ret T` holds. -/
class ZeroValue (T : Type) where
  zero : T

/-- Go `int`: the zero value is `0`. -/
instance instZeroValueInt : ZeroValue Int := ⟨0⟩

/-- Go `string`: the zero value is the empty string. -/
instance instZeroValueString : ZeroValue String := ⟨""⟩

/-- Go `bool`: the zero value is `false`. -/
instance instZeroValueBool : ZeroValue Bool := ⟨false⟩

/-- A Go struct with two fields: the zero value has every field zeroed. -/
instance instZeroValueProd (A B : Type) [ZeroValue A] [ZeroValue B] : ZeroValue (A × B) :=
  ⟨(ZeroValue.zero, ZeroValue.zero)⟩

/-- A non-nil error value as built by `errors.New(text)`. -/
structure GoError where
  text : String
  deriving DecidableEq, Repr

/-- The Go interface type `error`; `none` stands for `nil`. -/
abbrev GoErr := Option GoError

/-- `ErrGotValueOfNone = errors.New("called MustValue() on None")`. -/
def ErrGotValueOfNone : GoError := ⟨"called MustValue() on None"⟩

/-- `type Optional[T any] struct { value T; isSomething bool }`. -/
structure Optional (T : Type) where
  value : T
  isSomething : Bool
  deriving DecidableEq, Repr

/-- `func Some[T any](value T) Optional[T] { return Optional[T]{value, true} }`. -/
def Some {T : Type} (value : T) : Optional T := ⟨value, true⟩

/-- `func None[T any]() Optional[T] { return Optional[T]{isSomething: false} }`:
the field `value` is not listed in the composite literal, so it is zeroed. -/
def None (T : Type) [ZeroValue T] : Optional T := ⟨ZeroValue.zero, false⟩

/-- `func (o Optional[T]) IsSome() bool { return o.isSomething }`. -/
def Optional.IsSome {T : Type} (o : Optional T) : Bool := o.isSomething

/-- `func (o Optional[T]) IsNone() bool { return !o.isSomething }`. -/
def Optional.IsNone {T : Type} (o : Optional T) : Bool := !o.isSomething

/-- `func (o Optional[T]) Value(defaultValue T) T`: the payload when the
discriminant is set, the default otherwise. -/
def Optional.Value {T : Type} (o : Optional T) (defaultValue : T) : T :=
  if o.isSomething then
    o.value
  else
    defaultValue

/-- `func (o Optional[T]) MustValue() (T, error)`: when the discriminant is
unset, a fresh zero `ret` and `ErrGotValueOfNone`; otherwise the payload and `nil`. -/
def Optional.MustValue {T : Type} [ZeroValue T] (o : Optional T) : T × GoErr :=
  if !o.isSomething then
    let ret : T := ZeroValue.zero
    (ret, some ErrGotValueOfNone)
  else
    (o.value, none)

/-! ### Method bodies as statements run in a call frame

The four method bodies are written out statement by statement and run by an
interpreter over the frame of the call.  The frame holds the receiver `o`, the
parameter `defaultValue` (when the method has one) and the local `ret` (once
declared).  The statement language has the two assignments that could change a
receiver, `o.value = e` and `o.isSomething = e`, so that "the body leaves the
receiver alone" is a property of the body and not of the language. -/

/-- Boolean expressions of the method bodies. -/
inductive BExpr where
  /-- `o.isSomething`. -/
  | recvIsSomething
  /-- `!e`. -/
  | not (e : BExpr)
  /-- `true` or `false`. -/
  | lit (b : Bool)
  deriving DecidableEq, Repr

/-- Expressions of type `T` of the method bodies. -/
inductive TExpr where
  /-- `o.value`. -/
  | recvValue
  /-- `defaultValue`. -/
  | param
  /-- `ret`. -/
  | localRet
  deriving DecidableEq, Repr

/-- Expressions of type `error` of the method bodies. -/
inductive EExpr where
  /-- `nil`. -/
  | nil
  /-- The package variable `ErrGotValueOfNone`. -/
  | errGotValueOfNone
  deriving DecidableEq, Repr

/-- Statements. -/
inductive Stmt where
  /-- The empty statement (a missing `else`). -/
  | skip
  /-- `var ret T`. -/
  | varRet
  /-- `o.value = e`. -/
  | setValue (e : TExpr)
  /-- `o.isSomething = e`. -/
  | setIsSomething (e : BExpr)
  /-- `return e` with `e` a `bool`. -/
  | retBool (e : BExpr)
  /-- `return e` with `e` a `T`. -/
  | retVal (e : TExpr)
  /-- `return e, err`. -/
  | retValErr (e : TExpr) (err : EExpr)
  /-- `if c { thn } else { els }`. -/
  | ifElse (c : BExpr) (thn els : Stmt)
  /-- `s1; s2`. -/
  | seq (s1 s2 : Stmt)
  deriving DecidableEq, Repr

/-- What a method returns. -/
inductive Ret (T : Type) where
  | bool (b : Bool)
  | val (v : T)
  | valErr (v : T) (err : GoErr)
  deriving DecidableEq, Repr

/-- The frame of a method call. -/
structure Frame (T : Type) where
  o : Optional T
  defaultValue : Option T
  ret : Option T
  deriving DecidableEq, Repr

/-- A frame after some statements ran, and the returned value if a `return`
was reached. -/
structure Outcome (T : Type) where
  frame : Frame T
  returned : Option (Ret T)
  deriving DecidableEq, Repr

/-- Value of a boolean expression in a frame. -/
def evalB {T : Type} : BExpr → Frame T → Bool
  | .recvIsSomething, fr => fr.o.isSomething
  | .not e, fr => !(evalB e fr)
  | .lit b, _ => b

/-- Value of a `T` expression in a frame; `none` when the variable does not exist. -/
def evalT {T : Type} : TExpr → Frame T → Option T
  | .recvValue, fr => some fr.o.value
  | .param, fr => fr.defaultValue
  | .localRet, fr => fr.ret

/-- Value of an `error` expression. -/
def evalE : EExpr → GoErr
  | .nil => none
  | .errGotValueOfNone => some ErrGotValueOfNone

/-- Runs a statement in a frame.  `none` when a variable that does not exist is
read; otherwise the frame reached and the returned value, if any. -/
def exec {T : Type} [ZeroValue T] : Stmt → Frame T → Option (Outcome T)
  | .skip, fr => some ⟨fr, none⟩
  | .varRet, fr => some ⟨⟨fr.o, fr.defaultValue, some ZeroValue.zero⟩, none⟩
  | .setValue e, fr =>
    match evalT e fr with
    | none => none
    | some v => some ⟨⟨⟨v, fr.o.isSomething⟩, fr.defaultValue, fr.ret⟩, none⟩
  | .setIsSomething e, fr =>
    some ⟨⟨⟨fr.o.value, evalB e fr⟩, fr.defaultValue, fr.ret⟩, none⟩
  | .retBool e, fr => some ⟨fr, some (Ret.bool (evalB e fr))⟩
  | .retVal e, fr =>
    match evalT e fr with
    | none => none
    | some v => some ⟨fr, some (Ret.val v)⟩
  | .retValErr e err, fr =>
    match evalT e fr with
    | none => none
    | some v => some ⟨fr, some (Ret.valErr v (evalE err))⟩
  | .ifElse c thn els, fr => if evalB c fr then exec thn fr else exec els fr
  | .seq s1 s2, fr =>
    match exec s1 fr with
    | none => none
    | some out =>
      match out.returned with
      | some _ => some out
      | none => exec s2 out.frame

/-- Whether a statement contains an assignment to the receiver or to one of
its fields. -/
def assignsReceiver : Stmt → Bool
  | .skip => false
  | .varRet => false
  | .setValue _ => true
  | .setIsSomething _ => true
  | .retBool _ => false
  | .retVal _ => false
  | .retValErr _ _ => false
  | .ifElse _ thn els => assignsReceiver thn || assignsReceiver els
  | .seq s1 s2 => assignsReceiver s1 || assignsReceiver s2

/-- A method call as a step on an Optional: the body runs in a fresh frame whose
receiver is `o`; the step yields the returned value and the receiver held by
the frame when the body returns.  `none` when the body is stuck or ends
without a `return`.  (Go passes a value receiver by copy, so the instance of
the caller is at most as exposed as this receiver.) -/
def call {T : Type} [ZeroValue T] (body : Stmt) (o : Optional T) (arg : Option T) :
    Option (Ret T × Optional T) :=
  match exec body ⟨o, arg, none⟩ with
  | none => none
  | some out =>
    match out.returned with
    | none => none
    | some r => some (r, out.frame.o)

/-- Body of `IsSome`: `return o.isSomething`. -/
def IsSomeBody : Stmt :=
  .retBool .recvIsSomething

/-- Body of `IsNone`: `return !o.isSomething`. -/
def IsNoneBody : Stmt :=
  .retBool (.not .recvIsSomething)

/-- Body of `Value`:
`if o.isSomething { return o.value } else { return defaultValue }`. -/
def ValueBody : Stmt :=
  .ifElse .recvIsSomething
    (.retVal .recvValue)
    (.retVal .param)

/-- Body of `MustValue`:
`if !o.isSomething { var ret T; return ret, ErrGotValueOfNone }; return o.value, nil`. -/
def MustValueBody : Stmt :=
  .seq
    (.ifElse (.not .recvIsSomething)
      (.seq .varRet (.retValErr .localRet .errGotValueOfNone))
      .skip)
    (.retValErr .recvValue .nil)

/-! ### Zero value of the struct, and `Value` read through `MustValue` -/

/-- The zero value of the Go struct `Optional[T]` (an uninitialised
`var o Optional[T]`): every field holds the zero value of its type. -/
instance instZeroValueOptional (T : Type) [ZeroValue T] : ZeroValue (Optional T) :=
  ⟨⟨ZeroValue.zero, ZeroValue.zero⟩⟩

/-- Specification reading of `Value`: call `MustValue`, keep its value when the
error is `nil`, and put the default in place of a non-nil error. -/
def Optional.ValueViaMustValue {T : Type} [ZeroValue T] (o : Optional T) (defaultValue : T) : T :=
  match o.MustValue with
  | (x, none) => x
  | (_, some _) => defaultValue

/-! ### Sanity checks on concrete inputs (the scenarios of the test suite) -/

example : (Some (42 : Int)).Value 0 = 42 := by decide
example : (None Int).Value 0 = 0 := by decide
example : (Some "hello").Value "" = "hello" := by decide
example : (None String).Value "default" = "default" := by decide
example : (Some (42 : Int)).MustValue = (42, none) := by decide
example : (None Int).MustValue = (0, some ErrGotValueOfNone) := by decide
example : (None String).MustValue = ("", some ErrGotValueOfNone) := by decide
example : (Optional.mk (9 : Int) false).MustValue = (0, some ErrGotValueOfNone) := by decide
example : (Optional.mk (9 : Int) false).ValueViaMustValue 3 = 3 := by decide
example : (Some (9 : Int)).ValueViaMustValue 3 = 9 := by decide
example : (ZeroValue.zero : Optional Int) = None Int := by decide
example : (ZeroValue.zero : Optional String).MustValue = ("", some ErrGotValueOfNone) := by decide
example : Some (0 : Int) ≠ None Int := by decide
example : call IsSomeBody (Some (42 : Int)) none = some (Ret.bool true, Some 42) := by decide
example : call ValueBody (None Int) (some 7) = some (Ret.val 7, None Int) := by decide
example : call ValueBody (None Int) none = none := by decide
example : call MustValueBody (Optional.mk (9 : Int) false) none =
    some (Ret.valErr 0 (some ErrGotValueOfNone), Optional.mk 9 false) := by decide
example : call (Stmt.seq (.setIsSomething (.lit false)) (.retBool .recvIsSomething))
    (Some (42 : Int)) none = some (Ret.bool false, Optional.mk 42 false) := by decide
example : call (Stmt.seq (.setValue .param) (.retVal .recvValue))
    (Some (42 : Int)) (some 7) = some (Ret.val 7, Some 7) := by decide

/-! ### Constructors and presence tests -/

/-- C1: for every type `T` and every value `v` of `T`, `Some(v).IsSome()` is true
and `Some(v).IsNone()` is false; this covers the zero value of `T`, shown here
for any type with its zero value and for `0` and the empty string. -/
theorem Some_IsSome_IsNone :
    (∀ (T : Type) (v : T), (Some v).IsSome = true ∧ (Some v).IsNone = false) ∧
    (∀ (T : Type) [ZeroValue T],
      (Some (ZeroValue.zero : T)).IsSome = true ∧
      (Some (ZeroValue.zero : T)).IsNone = false) ∧
    ((Some (0 : Int)).IsSome = true ∧ (Some (0 : Int)).IsNone = false) ∧
    ((Some "").IsSome = true ∧ (Some "").IsNone = false) :=
  ⟨fun _ _ => ⟨rfl, rfl⟩, fun _ _ => ⟨rfl, rfl⟩, ⟨rfl, rfl⟩, ⟨rfl, rfl⟩⟩

/-- C2: for every type `T`, `None[T]().IsSome()` is false and
`None[T]().IsNone()` is true. -/
theorem None_IsSome_IsNone (T : Type) [ZeroValue T] :
    (None T).IsSome = false ∧ (None T).IsNone = true :=
  ⟨rfl, rfl⟩

/-! ### Reading the value back -/

/-- C3: for every type `T` and all `v`, `d` of `T`, `Some(v).Value(d)` equals `v`:
the stored value comes back unchanged and the default is ignored, also when
`v` is the zero value of `T` and `d` differs from it. -/
theorem Some_Value :
    (∀ (T : Type) (v d : T), (Some v).Value d = v) ∧
    (∀ (T : Type) [ZeroValue T] (d : T), (Some (ZeroValue.zero : T)).Value d = ZeroValue.zero) ∧
    (Some (0 : Int)).Value 7 = 0 ∧
    (Some "").Value "default" = "" ∧
    (Some ((42 : Int), "hello")).Value (0, "") = (42, "hello") :=
  ⟨fun _ _ _ => rfl, fun _ _ _ => rfl, rfl, rfl, rfl⟩

/-- C4: for every type `T` and every `d` of `T`, `None[T]().Value(d)` equals `d`:
on an absent Optional, `Value` is the identity function on its default. -/
theorem None_Value (T : Type) [ZeroValue T] :
    (∀ d : T, (None T).Value d = d) ∧ (None T).Value = id :=
  ⟨fun _ => rfl, rfl⟩

/-- C5: for every type `T` and every `v` of `T`, `Some(v).MustValue()` returns the
pair `(v, nil)`: the original value and no error. -/
theorem Some_MustValue (T : Type) [ZeroValue T] (v : T) :
    (Some v).MustValue = (v, none) :=
  rfl

/-- C6: for every type `T`, `None[T]().MustValue()` returns the pair
(zero value of `T`, `ErrGotValueOfNone`); that is `(0, ErrGotValueOfNone)` for
`int` and `("", ErrGotValueOfNone)` for `string`. -/
theorem None_MustValue :
    (∀ (T : Type) [ZeroValue T],
      (None T).MustValue = (ZeroValue.zero, some ErrGotValueOfNone)) ∧
    (None Int).MustValue = (0, some ErrGotValueOfNone) ∧
    (None String).MustValue = ("", some ErrGotValueOfNone) :=
  ⟨fun _ _ => rfl, rfl, rfl⟩

/-! ### The single failure mode -/

/-- C7: for every Optional `o` (any payload, any discriminant), `o.MustValue()`
returns a non-nil error if and only if `o.IsNone()` is true, and the error is
either `nil` or exactly `ErrGotValueOfNone`: no other error can be returned. -/
theorem MustValue_error_iff_IsNone (T : Type) [ZeroValue T] (o : Optional T) :
    (o.MustValue.2 ≠ none ↔ o.IsNone = true) ∧
    (o.MustValue.2 = none ∨ o.MustValue.2 = some ErrGotValueOfNone) := by
  obtain ⟨v, b⟩ := o
  cases b <;> simp [Optional.MustValue, Optional.IsNone]

/-- C8: for every Optional `o` (any payload, any discriminant), `o.IsNone()` is
the logical negation of `o.IsSome()`, so exactly one of the two is true. -/
theorem IsNone_eq_not_IsSome (T : Type) (o : Optional T) :
    o.IsNone = !o.IsSome ∧
    ((o.IsSome = true ∧ o.IsNone = false) ∨ (o.IsSome = false ∧ o.IsNone = true)) := by
  obtain ⟨v, b⟩ := o
  cases b <;> simp [Optional.IsNone, Optional.IsSome]

/-! ### Frame: no method changes its receiver -/

/-- A statement without an assignment to the receiver leaves the receiver of
the frame as it found it, whatever else it does. -/
theorem exec_receiver_of_not_assignsReceiver {T : Type} [ZeroValue T] (s : Stmt) :
    ∀ (fr : Frame T) (out : Outcome T),
      assignsReceiver s = false → exec s fr = some out → out.frame.o = fr.o := by
  induction s with
  | skip =>
    intro fr out _ h
    simp only [exec, Option.some.injEq] at h
    rw [← h]
  | varRet =>
    intro fr out _ h
    simp only [exec, Option.some.injEq] at h
    rw [← h]
  | setValue e =>
    intro fr out ha _
    simp [assignsReceiver] at ha
  | setIsSomething e =>
    intro fr out ha _
    simp [assignsReceiver] at ha
  | retBool e =>
    intro fr out _ h
    simp only [exec, Option.some.injEq] at h
    rw [← h]
  | retVal e =>
    intro fr out _ h
    simp only [exec] at h
    cases hv : evalT e fr with
    | none => simp [hv] at h
    | some v =>
      simp only [hv, Option.some.injEq] at h
      rw [← h]
  | retValErr e err =>
    intro fr out _ h
    simp only [exec] at h
    cases hv : evalT e fr with
    | none => simp [hv] at h
    | some v =>
      simp only [hv, Option.some.injEq] at h
      rw [← h]
  | ifElse c thn els ihT ihE =>
    intro fr out ha h
    simp only [assignsReceiver, Bool.or_eq_false_iff] at ha
    simp only [exec] at h
    cases hc : evalB c fr with
    | true =>
      simp only [hc, if_true] at h
      exact ihT fr out ha.1 h
    | false =>
      simp only [hc, Bool.false_eq_true, if_false] at h
      exact ihE fr out ha.2 h
  | seq s1 s2 ih1 ih2 =>
    intro fr out ha h
    simp only [assignsReceiver, Bool.or_eq_false_iff] at ha
    simp only [exec] at h
    cases h1 : exec s1 fr with
    | none => simp [h1] at h
    | some mid =>
      simp only [h1] at h
      have hmid := ih1 fr mid ha.1 h1
      cases hr : mid.returned with
      | some r =>
        simp only [hr, Option.some.injEq] at h
        rw [← h]
        exact hmid
      | none =>
        simp only [hr] at h
        rw [ih2 mid.frame out ha.2 h]
        exact hmid

/-- A call of a body without an assignment to the receiver, when it returns,
hands back the Optional it was called on. -/
theorem call_receiver_of_not_assignsReceiver {T : Type} [ZeroValue T] (body : Stmt)
    (o : Optional T) (arg : Option T) (r : Ret T) (o2 : Optional T)
    (ha : assignsReceiver body = false) (h : call body o arg = some (r, o2)) : o2 = o := by
  unfold call at h
  cases he : exec body ⟨o, arg, none⟩ with
  | none => simp [he] at h
  | some out =>
    simp only [he] at h
    cases hr : out.returned with
    | none => simp [hr] at h
    | some r2 =>
      simp only [hr, Option.some.injEq, Prod.mk.injEq] at h
      rw [← h.2]
      exact exec_receiver_of_not_assignsReceiver body ⟨o, arg, none⟩ out ha he

/-- C9: no method mutates an existing instance.  Each of `IsSome`, `IsNone`,
`Value(d)` and `MustValue`, run as a step from an Optional to a returned value
and an Optional, returns (the call is never stuck), returns what the method
returns, and ends with the Optional it started from, for every Optional and
every argument; so a present Optional stays present with the same payload and
an absent one stays absent.  No body contains an assignment to the receiver,
and whatever the frame holds for the argument, a call of one of the four
bodies that returns hands back the Optional it was called on. -/
theorem methods_leave_receiver_unchanged (T : Type) [ZeroValue T] (o : Optional T) (d : T) :
    (call IsSomeBody o none = some (Ret.bool o.IsSome, o) ∧
      call IsNoneBody o none = some (Ret.bool o.IsNone, o) ∧
      call ValueBody o (some d) = some (Ret.val (o.Value d), o) ∧
      call MustValueBody o none = some (Ret.valErr o.MustValue.1 o.MustValue.2, o)) ∧
    (assignsReceiver IsSomeBody = false ∧ assignsReceiver IsNoneBody = false ∧
      assignsReceiver ValueBody = false ∧ assignsReceiver MustValueBody = false) ∧
    (∀ (body : Stmt) (arg : Option T) (r : Ret T) (o2 : Optional T),
      body = IsSomeBody ∨ body = IsNoneBody ∨ body = ValueBody ∨ body = MustValueBody →
      call body o arg = some (r, o2) → o2 = o) := by
  refine ⟨?_, ⟨rfl, rfl, rfl, rfl⟩, ?_⟩
  · obtain ⟨v, b⟩ := o
    refine ⟨rfl, rfl, ?_, ?_⟩
    · cases b <;> rfl
    · cases b <;> rfl
  · intro body arg r o2 hb h
    refine call_receiver_of_not_assignsReceiver body o arg r o2 ?_ h
    rcases hb with hb | hb | hb | hb <;> subst hb <;> rfl

/-! ### The payload of an absent Optional -/

/-- C10: the payload of an absent Optional is never read.  For every type `T` and
any two Optionals `o1`, `o2` whose discriminant is false, whatever their
payload fields hold, `IsSome`, `IsNone`, `Value(d)` for every `d`, and
`MustValue` return identical results on `o1` and `o2`; `Value(d)` returns `d`
and `MustValue` returns the zero value of `T` with `ErrGotValueOfNone`, not the
stored payload. -/
theorem absent_payload_never_read (T : Type) [ZeroValue T] (o1 o2 : Optional T)
    (h1 : o1.isSomething = false) (h2 : o2.isSomething = false) :
    o1.IsSome = o2.IsSome ∧ o1.IsNone = o2.IsNone ∧
    (∀ d : T, o1.Value d = o2.Value d ∧ o1.Value d = d) ∧
    o1.MustValue = o2.MustValue ∧
    o1.MustValue = (ZeroValue.zero, some ErrGotValueOfNone) := by
  obtain ⟨v1, b1⟩ := o1
  obtain ⟨v2, b2⟩ := o2
  simp only at h1 h2
  subst h1 h2
  simp [Optional.IsSome, Optional.IsNone, Optional.Value, Optional.MustValue]

/-- Witness for C10: two absent `Optional[int]` values holding the stale payloads
`5` and `7` are indistinguishable through the four methods. -/
theorem absent_payload_never_read_witness :
    (Optional.mk (5 : Int) false).isSomething = false ∧
    (Optional.mk (7 : Int) false).isSomething = false ∧
    ((Optional.mk (5 : Int) false).IsSome = (Optional.mk (7 : Int) false).IsSome ∧
      (Optional.mk (5 : Int) false).IsNone = (Optional.mk (7 : Int) false).IsNone ∧
      (∀ d : Int, (Optional.mk (5 : Int) false).Value d = (Optional.mk (7 : Int) false).Value d ∧
        (Optional.mk (5 : Int) false).Value d = d) ∧
      (Optional.mk (5 : Int) false).MustValue = (Optional.mk (7 : Int) false).MustValue ∧
      (Optional.mk (5 : Int) false).MustValue = (ZeroValue.zero, some ErrGotValueOfNone)) :=
  ⟨rfl, rfl, absent_payload_never_read Int ⟨5, false⟩ ⟨7, false⟩ rfl rfl⟩

/-! ### `Value` as `MustValue` with the error replaced by the default -/

/-- C11: `Value` is `MustValue` with the error replaced by the default.  For every
Optional `o` and every `d`: `o.Value(d)` is the value obtained by calling
`MustValue` and substituting `d` for a non-nil error; if `o.MustValue()`
returns `(x, nil)` then `o.Value(d)` equals `x`, and if `o.MustValue()` returns
a non-nil error then `o.Value(d)` equals `d`. -/
theorem Value_eq_MustValue_or_default (T : Type) [ZeroValue T] (o : Optional T) (d : T) :
    o.Value d = o.ValueViaMustValue d ∧
    (∀ x : T, o.MustValue = (x, none) → o.Value d = x) ∧
    (o.MustValue.2 ≠ none → o.Value d = d) := by
  obtain ⟨v, b⟩ := o
  cases b
  · refine ⟨rfl, ?_, fun _ => rfl⟩
    intro x hx
    simp [Optional.MustValue] at hx
  · refine ⟨rfl, ?_, ?_⟩
    · intro x hx
      simp only [Optional.MustValue, Bool.not_true, Bool.false_eq_true, if_false,
        Prod.mk.injEq, and_true] at hx
      simp [Optional.Value, hx]
    · intro h
      simp [Optional.MustValue] at h

/-- Witness for C11: both premises occur.  `Some(42).MustValue()` is `(42, nil)`
and `Some(42).Value(0)` is `42`; `None[int]().MustValue()` carries a non-nil
error and `None[int]().Value(7)` is `7`. -/
theorem Value_eq_MustValue_or_default_witness :
    ((Some (42 : Int)).MustValue = (42, none) ∧ (Some (42 : Int)).Value 0 = 42) ∧
    ((None Int).MustValue.2 ≠ none ∧ (None Int).Value 7 = 7) :=
  ⟨⟨rfl, (Value_eq_MustValue_or_default Int (Some 42) 0).2.1 42 rfl⟩,
    ⟨by decide, (Value_eq_MustValue_or_default Int (None Int) 7).2.2 (by decide)⟩⟩

/-! ### `Some` against `None` -/

/-- C12: `Some` is injective and never collides with `None`.  For every type `T`
and all `a`, `b` of `T`, `Some(a)` equals `Some(b)` if and only if `a` equals
`b`, and `Some(a)` differs from `None[T]()`, also when `a` is the zero value of
`T`: `Some(0)` and `None[int]()` differ in `IsSome` and in the error of
`MustValue` although both give `0` as the value of `MustValue`. -/
theorem Some_injective_ne_None :
    (∀ (T : Type) (a b : T), Some a = Some b ↔ a = b) ∧
    (∀ T : Type, Function.Injective (Some : T → Optional T)) ∧
    (∀ (T : Type) [ZeroValue T] (a : T), Some a ≠ None T) ∧
    (∀ (T : Type) [ZeroValue T], Some (ZeroValue.zero : T) ≠ None T) ∧
    Some (0 : Int) ≠ None Int ∧
    ((Some (0 : Int)).IsSome = true ∧ (None Int).IsSome = false) ∧
    ((Some (0 : Int)).MustValue.2 = none ∧ (None Int).MustValue.2 = some ErrGotValueOfNone) ∧
    ((Some (0 : Int)).MustValue.1 = 0 ∧ (None Int).MustValue.1 = 0) := by
  refine ⟨?_, ?_, ?_, ?_, ?_, ⟨rfl, rfl⟩, ⟨rfl, rfl⟩, ⟨rfl, rfl⟩⟩
  · intro T a b
    constructor
    · intro h
      exact congrArg Optional.value h
    · intro h
      rw [h]
  · intro T a b h
    exact congrArg Optional.value h
  · intro T _ a h
    have hb := congrArg Optional.isSomething h
    simp [Some, None] at hb
  · intro T _ h
    have hb := congrArg Optional.isSomething h
    simp [Some, None] at hb
  · intro h
    have hb := congrArg Optional.isSomething h
    simp [Some, None] at hb

/-! ### The uninitialised Optional -/

/-- C13: the zero value of `Optional[T]` is the absent Optional.  For every type
`T`, `None[T]()` equals the struct with payload the zero value of `T` and
discriminant false, which is the zero value of the struct; so an uninitialised
`Optional[T]` reports `IsNone()` true (and `IsSome()` false), returns `d` from
`Value(d)`, and returns (zero value of `T`, `ErrGotValueOfNone`) from
`MustValue`. -/
theorem zero_Optional_is_None (T : Type) [ZeroValue T] :
    None T = Optional.mk (ZeroValue.zero : T) false ∧
    (ZeroValue.zero : Optional T) = None T ∧
    (ZeroValue.zero : Optional T).IsNone = true ∧
    (ZeroValue.zero : Optional T).IsSome = false ∧
    (∀ d : T, (ZeroValue.zero : Optional T).Value d = d) ∧
    (ZeroValue.zero : Optional T).MustValue = (ZeroValue.zero, some ErrGotValueOfNone) :=
  ⟨rfl, rfl, rfl, rfl, fun _ => rfl, rfl⟩

end GoOptional
